import Mathlib

/-!
Shallow embedding of the caption-bot backend (src/server.js and src/trends.js)
and proofs about its route handlers: the trends endpoint, the caption
pipeline, and the file-backed draft store.

External effects (ffmpeg, the speech-to-text call, the chat-completion calls,
the network fetches, file unlinks) are passed in as oracle values; the
handlers are then pure functions of the request, the environment and those
oracles, mirroring the control flow of the JavaScript source line by line.
-/

/-! ### JavaScript value modelling

Body fields of a JSON request are either absent (undefined), explicitly
null, or a string.  The nullish-coalescing operator treats undefined
and null alike; truthiness additionally treats the empty string as false. -/

inductive JsField : Type where
  | undef : JsField
  | null : JsField
  | str : String → JsField
deriving DecidableEq

/-- Semantics of the JavaScript nullish-coalescing operator x ?? d for our
value space: null and undefined fall through to the default. -/
def JsField.coalesce : JsField → String → String
  | .str s, _ => s
  | .null, d => d
  | .undef, d => d

/-- Truthiness of a JsField: undefined, null and the empty string are falsy. -/
def JsField.isTruthy : JsField → Bool
  | .str s => !(s == "")
  | _ => false

/-- Semantics of x || "" in the draft-create handler: a falsy value becomes
the empty string. -/
def JsField.orEmpty : JsField → String
  | .str s => s
  | _ => ""

/-! ### Model-response parsing (server.js lines 217-222 and 241-246)

The JavaScript pipeline splits the raw text on the regex matching an
optional carriage return followed by a newline, maps each line through a
numeric-marker strip and a trim, filters out falsy lines, and slices to the
first k entries.  All string work is done on character lists by structural recursion so that
concrete inputs evaluate inside the kernel. -/

/-- Splitting on the newline character, keeping empty segments, as the first
stage of split on the pattern CR-optional-then-LF. -/
def splitNL : List Char → List (List Char)
  | [] => [[]]
  | c :: cs =>
    if c = '\n' then [] :: splitNL cs
    else
      match splitNL cs with
      | [] => [[c]]
      | seg :: rest => (c :: seg) :: rest

/-- Removing one trailing carriage return from a segment. -/
def stripTrailingCR (l : List Char) : List Char :=
  if l.getLast? = some '\r' then l.dropLast else l

/-- The regex split consumes an optional carriage return before each newline,
so every segment except the last loses one trailing CR. -/
def stripCRs : List (List Char) → List (List Char)
  | [] => []
  | [x] => [x]
  | x :: xs => stripTrailingCR x :: stripCRs xs

/-- Splitting a string on the pattern CR-optional-then-LF, exactly as the
JavaScript split call does. -/
def splitJsLines (s : String) : List (List Char) :=
  stripCRs (splitNL s.data)

/-- Stripping a leading numeric-list marker: one or more digits, a dot, then
any whitespace.  Lines without that shape are returned unchanged. -/
def stripListNumber (l : List Char) : List Char :=
  let digits := l.takeWhile Char.isDigit
  if digits.isEmpty then l
  else
    match l.drop digits.length with
    | '.' :: rest => rest.dropWhile Char.isWhitespace
    | _ => l

/-- Whitespace trimming from both ends of a character list. -/
def trimChars (l : List Char) : List Char :=
  ((l.dropWhile Char.isWhitespace).reverse.dropWhile Char.isWhitespace).reverse

/-- String-level trim used on the raw completion text. -/
def trimString (s : String) : String :=
  (trimChars s.data).asString

/-- The shared parser of both completion responses: split into lines, strip
the numeric marker, trim, drop empty lines, keep at most the first limit. -/
def parseModelLines (limit : Nat) (raw : String) : List String :=
  (((splitJsLines raw).map (fun line => trimChars (stripListNumber line))).filter
    (fun line => !line.isEmpty)).map List.asString |>.take limit

/-- Captions parsed from a completion message, server.js lines 217-222: the
content is trimmed (with empty default), then parsed with limit 4. -/
def captionsFromModel (content : Option String) : List String :=
  parseModelLines 4 (trimString (content.getD ""))

/-- Sounds parsed from the second completion message, server.js lines
241-246, with limit 3. -/
def soundsFromModel (content : Option String) : List String :=
  parseModelLines 3 (trimString (content.getD ""))

/-! ### The trends endpoints

Two handlers can serve GET /api/trends.  The router from src/trends.js is
mounted at the path /api on server.js line 44; the simulated-fallback
handler is registered later, on server.js line 84.  Express dispatches to
registered handlers in order, and the router handler always ends the
request, so registration order decides which handler runs. -/

/-- A trend record as returned by the external trends API modelled in
src/trends.js: name, optional video count, optional music title. -/
structure RawTrend : Type where
  name : String
  videoCount : Option Nat
  musicTitle : Option String
deriving DecidableEq

/-- The simplified shape the trends router sends to the front end. -/
structure SimpleTrend : Type where
  hashtag : String
  videos : Option Nat
  sound : Option String
deriving DecidableEq

/-- The mapping on src/trends.js lines 24-28. -/
def simplifyTrend (t : RawTrend) : SimpleTrend :=
  ⟨t.name, t.videoCount, t.musicTitle⟩

/-- Outcome of the upstream fetch in src/trends.js: ok flag, status text and
the decoded trends array.  A network or decode failure is modelled as the
whole value being absent. -/
structure UpstreamFetch : Type where
  ok : Bool
  statusText : String
  trends : List RawTrend
deriving DecidableEq

/-- Bodies that a GET /api/trends response can carry: the trends-router list
shape, the trends-router error shape, or the server.js ok/provider/data
shape. -/
inductive TrendsBody : Type where
  | routerList : List SimpleTrend → TrendsBody
  | routerError : String → TrendsBody
  | okData : String → List String → TrendsBody
deriving DecidableEq

/-- The handler of src/trends.js lines 8-35 as a function of the fetch
outcome: a missing outcome or a not-ok response raises, and the catch block
answers 500 with a fixed error body; otherwise the simplified list is sent
with the default status 200. -/
def trendsRouterGet (fetched : Option UpstreamFetch) : Nat × TrendsBody :=
  match fetched with
  | none => (500, .routerError "Failed to fetch trends")
  | some r =>
    if r.ok then (200, .routerList (r.trends.map simplifyTrend))
    else (500, .routerError "Failed to fetch trends")

/-- The fixed fallback list of server.js lines 121-131. -/
def fallbackHashtags : List String :=
  ["#fyp", "#viral", "#trend", "#challenge", "#lifehack", "#dance", "#funny", "#asmr", "#tutorial"]

/-- The handler of server.js lines 84-133 as a function of the environment
variable USE_PUPPETEER and the scrape outcome (absent when the scrape
raised).  A nonempty scraped list is returned as provider puppeteer; every
other path falls through to the simulated fallback with status 200. -/
def serverTrendsGet (usePuppeteerEnv : JsField) (scraped : Option (List String)) :
    Nat × TrendsBody :=
  if usePuppeteerEnv = JsField.str "true" then
    match scraped with
    | some items =>
      if items.isEmpty then (200, .okData "simulated" fallbackHashtags)
      else (200, .okData "puppeteer" items)
    | none => (200, .okData "simulated" fallbackHashtags)
  else (200, .okData "simulated" fallbackHashtags)

/-- The two handlers that match GET /api/trends. -/
inductive ApiTrendsHandler : Type where
  | trendsRouter : ApiTrendsHandler
  | serverFallback : ApiTrendsHandler
deriving DecidableEq

/-- Registration order in server.js: the router mount on line 44 comes
before the route definition on line 84. -/
def apiTrendsRegistrationOrder : List ApiTrendsHandler :=
  [.trendsRouter, .serverFallback]

/-- Path matching for GET requests: the router is mounted at /api and
defines the subroute /trends; the server handler is registered for the
literal path. -/
def handlesPath (h : ApiTrendsHandler) (p : String) : Bool :=
  match h with
  | .trendsRouter => p == "/api" ++ "/trends"
  | .serverFallback => p == "/api/trends"

/-- Express dispatch: the first registered handler whose path matches
receives the request (each of these handlers always sends a response and
never forwards to the next one). -/
def dispatchGet (p : String) : Option ApiTrendsHandler :=
  (apiTrendsRegistrationOrder.filter (fun h => handlesPath h p)).head?

/-! ### The draft store (server.js lines 256-331)

Drafts live in a JSON array persisted to a file.  Each route handler reads
the array, transforms it, writes it back and answers with a JSON envelope.
The handlers below take the stored array as input and return the array that
is persisted afterwards together with the response, so a 400 or 404 answer
returning the input array unchanged is exactly the absence of a write. -/

/-- A draft record as built by the POST handler and mutated by the PUT
handler. -/
structure Draft : Type where
  id : String
  name : String
  caption : String
  hashtags : String
  created : String
  updated : Option String
deriving DecidableEq

/-- An error envelope: HTTP status, the ok flag and the error message. -/
structure ErrBody : Type where
  status : Nat
  ok : Bool
  error : String
deriving DecidableEq

/-- Outcome of a draft route: a draft payload with ok true, or an error
envelope. -/
inductive DraftOutcome : Type where
  | success : Draft → DraftOutcome
  | failure : ErrBody → DraftOutcome
deriving DecidableEq

/-- The id generation of server.js line 291: the string draft_ followed by
the decimal rendering of the current millisecond timestamp.  There is no
random component. -/
def draftIdOf (now : Nat) : String :=
  "draft_" ++ Nat.repr now

/-- GET /api/drafts answers with the stored array as is. -/
def listDrafts (store : List Draft) : List Draft :=
  store

/-- POST /api/drafts, server.js lines 286-300: reject a falsy name with 400,
otherwise build the record with defaulted caption and hashtags, prepend it
with unshift, persist, and return it. -/
def postDrafts (store : List Draft) (name caption hashtags : JsField)
    (now : Nat) (iso : String) : List Draft × DraftOutcome :=
  if name.isTruthy then
    match name with
    | .str s =>
      let item : Draft :=
        ⟨draftIdOf now, s, caption.orEmpty, hashtags.orEmpty, iso, none⟩
      (item :: store, .success item)
    | _ => (store, .failure ⟨400, false, "Missing name"⟩)
  else (store, .failure ⟨400, false, "Missing name"⟩)

/-- Replacing the first element satisfying p with its image under f,
returning the new list and the new element; models findIndex followed by
assignment at that index. -/
def updateFirst {α : Type} (p : α → Bool) (f : α → α) : List α → Option (List α × α)
  | [] => none
  | x :: xs =>
    if p x then
      some (f x :: xs, f x)
    else
      match updateFirst p f xs with
      | none => none
      | some (xs', r) => some (x :: xs', r)

/-- Removing the first element satisfying p, returning the remaining list
and the removed element; models findIndex followed by splice. -/
def removeFirst {α : Type} (p : α → Bool) : List α → Option (List α × α)
  | [] => none
  | x :: xs =>
    if p x then
      some (xs, x)
    else
      match removeFirst p xs with
      | none => none
      | some (xs', r) => some (x :: xs', r)

/-- The merge on server.js line 309: spread the old record, overriding the
three patchable fields through nullish coalescing and stamping the updated
field. -/
def patchDraft (old : Draft) (name caption hashtags : JsField) (iso : String) : Draft :=
  { old with
    name := name.coalesce old.name
    caption := caption.coalesce old.caption
    hashtags := hashtags.coalesce old.hashtags
    updated := some iso }

/-- PUT /api/drafts/:id, server.js lines 302-316: find the first record with
the given id (404 when absent, without a write), replace it by the patched
record, persist, and return the patched record. -/
def putDraftRoute (store : List Draft) (id : String) (name caption hashtags : JsField)
    (iso : String) : List Draft × DraftOutcome :=
  match updateFirst (fun d => d.id == id) (fun d => patchDraft d name caption hashtags iso) store with
  | none => (store, .failure ⟨404, false, "Draft not found"⟩)
  | some (store', d) => (store', .success d)

/-- DELETE /api/drafts/:id, server.js lines 318-331: find the first record
with the given id (404 when absent, without a write), splice it out,
persist, and return the removed record. -/
def deleteDraftRoute (store : List Draft) (id : String) : List Draft × DraftOutcome :=
  match removeFirst (fun d => d.id == id) store with
  | none => (store, .failure ⟨404, false, "Draft not found"⟩)
  | some (store', removed) => (store', .success removed)

/-- Ids of the stored drafts, in storage order. -/
def storeIds (store : List Draft) : List String :=
  store.map Draft.id

/-! ### The caption pipeline (server.js lines 144-253)

The POST /api/caption handler runs inside one try block: a throw from any
awaited step lands in the catch on lines 249-252, which answers 500 with
the fixed error string and the message of the thrown error as detail.
External steps are oracle fields; an error value means the step threw. -/

/-- Environment and request of one POST /api/caption call: the OPENAI
credential from the environment, the optional uploaded file path set by
multer, and the idea field of the JSON body. -/
structure CaptionInput : Type where
  openaiKey : JsField
  file : Option String
  idea : JsField
deriving DecidableEq

/-- Oracle values for the external steps, in pipeline order: the ffmpeg
transcode, the speech-to-text call (its text field may be absent), the two
unlink calls, the loopback fetch of /api/trends (outer error is a thrown
fetch, inner option is the data field of the decoded body), and the two
chat completions (their content field may be absent). -/
structure CaptionOracles : Type where
  ffmpegRun : Except String Unit
  transcriptionText : Except String (Option String)
  unlinkVideo : Except String Unit
  unlinkAudio : Except String Unit
  trendsFetch : Except String (Option (List String))
  captionCompletion : Except String (Option String)
  soundCompletion : Except String (Option String)

/-- Body of a /api/caption response: the success envelope with captions,
sounds and trends, or the failure envelope with error and optional detail. -/
inductive CaptionBody : Type where
  | success : List String → List String → List String → CaptionBody
  | failure : String → Option String → CaptionBody
deriving DecidableEq

/-- Full outcome of one /api/caption call: status, body, and the list of
unlink calls that were issued, in order. -/
structure CaptionResult : Type where
  status : Nat
  body : CaptionBody
  unlinkAttempts : List String
deriving DecidableEq

/-- A unlinkSync call wrapped in try-catch on server.js lines 173-174: the
call is issued and recorded whatever its outcome, and an error is
swallowed. -/
def tryUnlink (path : String) (outcome : Except String Unit) (acc : List String) : List String :=
  match outcome with
  | .ok _ => acc ++ [path]
  | .error _ => acc ++ [path]

/-- The hard-coded substitute list on server.js line 189, used when the
loopback trends fetch throws. -/
def hardcodedTrends : List String :=
  ["#fyp", "#viral", "#trend", "#funny"]

/-- Trend text for the prompts, server.js line 191: at most the first five
entries, joined with single spaces. -/
def joinSpace : List String → String
  | [] => ""
  | [x] => x
  | x :: xs => x ++ " " ++ joinSpace xs

/-- Space-joined text of the first five trends. -/
def trendsTextOf (trends : List String) : String :=
  joinSpace (trends.take 5)

/-- The 500 envelope produced by the catch block on lines 249-252. -/
def captionCatch (detail : String) (unlinked : List String) : CaptionResult :=
  ⟨500, .failure "Caption generation failed" (some detail), unlinked⟩

/-- Steps 2 to 5 of the pipeline, server.js lines 181-248: resolve the
trend list (substitute on a thrown fetch, default the missing data field to
the empty list), run the two completions, parse both, and answer 200.  A
thrown completion aborts into the catch block; the unlink calls already
issued stay issued. -/
def captionTail (o : CaptionOracles) (unlinked : List String) : CaptionResult :=
  let trends :=
    match o.trendsFetch with
    | .error _ => hardcodedTrends
    | .ok d => d.getD []
  match o.captionCompletion with
  | .error e => captionCatch e unlinked
  | .ok c =>
    let captions := captionsFromModel c
    match o.soundCompletion with
    | .error e => captionCatch e unlinked
    | .ok sc =>
      let sounds := soundsFromModel sc
      ⟨200, .success captions sounds trends, unlinked⟩

/-- The POST /api/caption handler.  Line 146: a falsy credential answers
500 at once.  Lines 153-174: with an uploaded file, transcode and
transcribe (a throw aborts into the catch block with no unlink issued),
then unlink the upload and the derived audio file with errors swallowed.
Lines 175-178: otherwise a truthy idea is used as context.  Line 178: with
neither, answer 400.  Then the tail steps run. -/
def captionRoute (inp : CaptionInput) (o : CaptionOracles) : CaptionResult :=
  if !inp.openaiKey.isTruthy then
    ⟨500, .failure "OPENAI_API_KEY not set on server" none, []⟩
  else
    match inp.file with
    | some videoPath =>
      let audioPath := videoPath ++ ".mp3"
      match o.ffmpegRun with
      | .error e => captionCatch e []
      | .ok _ =>
        match o.transcriptionText with
        | .error e => captionCatch e []
        | .ok _t =>
          let unlinked := tryUnlink audioPath o.unlinkAudio (tryUnlink videoPath o.unlinkVideo [])
          captionTail o unlinked
    | none =>
      if inp.idea.isTruthy then
        captionTail o []
      else
        ⟨400, .failure "Provide video file (field \x27video\x27) or JSON { idea }" none, []⟩

/-! ### Decimal decoding and concrete scenarios -/

/-- Numeric value of a decimal digit character. -/
def digitValue (c : Char) : Nat :=
  c.toNat - 48

/-- Decoding a most-significant-first decimal digit string. -/
def decDigits (l : List Char) : Nat :=
  l.foldl (fun a c => a * 10 + digitValue c) 0

/-- First creation step of the id-collision scenario: a draft created during
millisecond 1700000000000. -/
def collisionStep1 : List Draft × DraftOutcome :=
  postDrafts [] (JsField.str "Hook idea") JsField.undef JsField.undef
    1700000000000 "2023-11-14T22:13:20.000Z"

/-- Second creation step: an identical create call during the same
millisecond, as Date.now can deliver to two sequential calls. -/
def collisionStep2 : List Draft × DraftOutcome :=
  postDrafts collisionStep1.1 (JsField.str "Hook idea") JsField.undef JsField.undef
    1700000000000 "2023-11-14T22:13:20.000Z"

/-- A request carrying both an uploaded file and a truthy idea, with the
credential configured. -/
def bothInputsRequest : CaptionInput :=
  ⟨JsField.str "sk-test", some "uploads/clip.mp4", JsField.str "my idea"⟩

/-- Oracles for that request: transcode and transcription succeed, the
loopback trends fetch throws, both completions return no content. -/
def bothInputsOracles : CaptionOracles :=
  ⟨Except.ok (), Except.ok (some "transcript"), Except.ok (), Except.ok (),
    Except.error "offline", Except.ok none, Except.ok none⟩

/-- A request whose transcode step fails. -/
def failedTranscodeRequest : CaptionInput :=
  ⟨JsField.str "sk-test", some "uploads/raw.mov", JsField.undef⟩

/-- Oracles where ffmpeg rejects; everything later is unreached. -/
def failedTranscodeOracles : CaptionOracles :=
  ⟨Except.error "ffmpeg exited with code 1", Except.ok none, Except.ok (), Except.ok (),
    Except.error "offline", Except.ok none, Except.ok none⟩

/-- First creation step of the duplicate-id scenario. -/
def dupStoreStep1 : List Draft × DraftOutcome :=
  postDrafts [] (JsField.str "first") JsField.undef JsField.undef 42 "t0"

/-- A store reached through two create calls during the same millisecond:
it holds two drafts with the same id. -/
def dupStore : List Draft :=
  (postDrafts dupStoreStep1.1 (JsField.str "second") JsField.undef JsField.undef 42 "t1").1

/-! ### Helper lemmas -/

/-- Length bound of the shared parser: the final slice keeps at most the
limit. -/
theorem parseModelLines_length_le (limit : Nat) (raw : String) :
    (parseModelLines limit raw).length ≤ limit := by
  unfold parseModelLines
  rw [List.length_take]
  exact Nat.min_le_left _ _

theorem digitValue_digitChar : ∀ d : Nat, d < 10 → digitValue (Nat.digitChar d) = d := by
  decide

theorem toDigitsCore_append :
    ∀ (fuel n : Nat) (ds : List Char),
      Nat.toDigitsCore 10 fuel n ds = Nat.toDigitsCore 10 fuel n [] ++ ds := by
  intro fuel
  induction fuel with
  | zero => intro n ds; simp [Nat.toDigitsCore]
  | succ f ih =>
    intro n ds
    simp only [Nat.toDigitsCore]
    by_cases h : n / 10 = 0
    · simp [h]
    · simp only [h, if_false]
      rw [ih (n / 10) (Nat.digitChar (n % 10) :: ds), ih (n / 10) [Nat.digitChar (n % 10)]]
      simp

theorem decDigits_toDigitsCore :
    ∀ (fuel n : Nat), n < fuel → decDigits (Nat.toDigitsCore 10 fuel n []) = n := by
  intro fuel
  induction fuel with
  | zero => intro n h; exact absurd h (Nat.not_lt_zero n)
  | succ f ih =>
    intro n h
    simp only [Nat.toDigitsCore]
    by_cases h0 : n / 10 = 0
    · have hn : n < 10 := by
        by_contra hge
        have : 0 < n / 10 := Nat.div_pos (by omega) (by norm_num)
        omega
      simp only [h0, if_true]
      simp [decDigits, Nat.mod_eq_of_lt hn, digitValue_digitChar n hn]
    · have hpos : 0 < n := by
        rcases Nat.eq_zero_or_pos n with h' | h'
        · exact absurd (by simp [h']) h0
        · exact h'
      have hlt : n / 10 < n := Nat.div_lt_self hpos (by norm_num)
      have hf : n / 10 < f := by omega
      simp only [h0, if_false]
      rw [toDigitsCore_append]
      unfold decDigits
      rw [List.foldl_append]
      have hmod : n % 10 < 10 := Nat.mod_lt n (by norm_num)
      have := ih (n / 10) hf
      unfold decDigits at this
      simp [this, digitValue_digitChar (n % 10) hmod]
      omega

theorem natRepr_injective : Function.Injective Nat.repr := by
  intro m n h
  have hd : Nat.toDigitsCore 10 (m + 1) m [] = Nat.toDigitsCore 10 (n + 1) n [] := by
    have := congrArg String.data h
    simpa [Nat.repr, Nat.toDigits, List.asString] using this
  have hm := decDigits_toDigitsCore (m + 1) m (Nat.lt_succ_self m)
  have hn := decDigits_toDigitsCore (n + 1) n (Nat.lt_succ_self n)
  rw [← hm, ← hn, hd]

theorem draftIdOf_injective : Function.Injective draftIdOf := by
  intro m n h
  apply natRepr_injective
  have := congrArg String.data h
  simp only [draftIdOf, String.data_append] at this
  have h2 : (Nat.repr m).data = (Nat.repr n).data :=
    List.append_cancel_left this
  cases hm : Nat.repr m
  cases hn : Nat.repr n
  rw [hm, hn] at h2
  simp_all

theorem updateFirst_none {α : Type} (p : α → Bool) (f : α → α) :
    ∀ l : List α, (∀ y ∈ l, p y = false) → updateFirst p f l = none := by
  intro l
  induction l with
  | nil => intro _; rfl
  | cons x xs ih =>
    intro h
    have hx := h x (List.mem_cons_self x xs)
    simp [updateFirst, hx, ih (fun y hy => h y (List.mem_cons_of_mem x hy))]

theorem removeFirst_none {α : Type} (p : α → Bool) :
    ∀ l : List α, (∀ y ∈ l, p y = false) → removeFirst p l = none := by
  intro l
  induction l with
  | nil => intro _; rfl
  | cons x xs ih =>
    intro h
    have hx := h x (List.mem_cons_self x xs)
    simp [removeFirst, hx, ih (fun y hy => h y (List.mem_cons_of_mem x hy))]

theorem updateFirst_append {α : Type} (p : α → Bool) (f : α → α) :
    ∀ (pre : List α) (x : α) (post : List α), (∀ y ∈ pre, p y = false) → p x = true →
      updateFirst p f (pre ++ x :: post) = some (pre ++ f x :: post, f x) := by
  intro pre
  induction pre with
  | nil => intro x post _ hx; simp [updateFirst, hx]
  | cons z zs ih =>
    intro x post hpre hx
    have hz := hpre z (List.mem_cons_self z zs)
    simp [updateFirst, hz, ih x post (fun y hy => hpre y (List.mem_cons_of_mem z hy)) hx]

theorem removeFirst_spec {α : Type} (p : α → Bool) :
    ∀ (l ds : List α) (r : α), removeFirst p l = some (ds, r) →
      ∃ pre post, l = pre ++ r :: post ∧ ds = pre ++ post ∧
        (∀ y ∈ pre, p y = false) ∧ p r = true := by
  intro l
  induction l with
  | nil => intro ds r h; simp [removeFirst] at h
  | cons x xs ih =>
    intro ds r h
    by_cases hx : p x = true
    · simp [removeFirst, hx] at h
      refine ⟨[], xs, ?_, ?_, ?_, ?_⟩ <;> simp_all
    · have hx' : p x = false := by simpa using hx
      simp only [removeFirst, hx', Bool.false_eq_true, if_false] at h
      cases hrec : removeFirst p xs with
      | none => rw [hrec] at h; simp at h
      | some pr =>
        rw [hrec] at h
        obtain ⟨xs', r'⟩ := pr
        simp only [Option.some.injEq, Prod.mk.injEq] at h
        obtain ⟨hds, hr⟩ := h
        obtain ⟨pre, post, h1, h2, h3, h4⟩ := ih xs' r' hrec
        rw [hr] at h1 h4
        refine ⟨x :: pre, post, by simp [h1], by simp [← hds, h2], ?_, h4⟩
        intro y hy
        rcases List.mem_cons.mp hy with h' | h'
        · subst h'; exact hx'
        · exact h3 y h'

theorem tryUnlink_eq (path : String) (outcome : Except String Unit) (acc : List String) :
    tryUnlink path outcome acc = acc ++ [path] := by
  cases outcome <;> rfl

theorem captionTail_success_bounds (o : CaptionOracles) (unlinked : List String)
    (cs ss ts : List String) :
    (captionTail o unlinked).body = CaptionBody.success cs ss ts →
      cs.length ≤ 4 ∧ ss.length ≤ 3 := by
  unfold captionTail
  cases o.captionCompletion with
  | error e => intro h; simp [captionCatch] at h
  | ok c =>
    cases o.soundCompletion with
    | error e => intro h; simp [captionCatch] at h
    | ok sc =>
      intro h
      simp only [CaptionBody.success.injEq] at h
      obtain ⟨h1, h2, _⟩ := h
      rw [← h1, ← h2]
      exact ⟨parseModelLines_length_le 4 _, parseModelLines_length_le 3 _⟩

theorem captionTail_status_ne_400 (o : CaptionOracles) (unlinked : List String) :
    (captionTail o unlinked).status ≠ 400 := by
  unfold captionTail
  cases o.captionCompletion with
  | error e => simp [captionCatch]
  | ok c =>
    cases o.soundCompletion with
    | error e => simp [captionCatch]
    | ok sc => simp

/-- Claim C1.  The claim states that GET /api/trends with scraping disabled
always answers 200 with the simulated nine-item fallback body, and that no
trends-fetch failure reaches the caller as a non-200 response.  The code
violates this: the router of src/trends.js, mounted at /api on server.js
line 44 before the fallback handler of line 84 is registered, receives
every GET /api/trends request, and on a failed upstream fetch it answers
500 with a bare error body.  The fallback handler that would produce the
simulated list is unreachable.  This theorem exhibits the divergence. -/
theorem apiTrends_route_shadowing_bug :
    dispatchGet "/api/trends" = some ApiTrendsHandler.trendsRouter ∧
    trendsRouterGet none = (500, TrendsBody.routerError "Failed to fetch trends") ∧
    serverTrendsGet JsField.undef none = (200, TrendsBody.okData "simulated" fallbackHashtags) ∧
    fallbackHashtags.length = 9 ∧
    (500, TrendsBody.routerError "Failed to fetch trends") ≠
      (200, TrendsBody.okData "simulated" fallbackHashtags) := by
  decide

/-- Claim C2.  Both completion parsers split on line breaks, strip a leading
numeric marker, trim, discard empty lines and truncate, the caption parser
to at most 4 entries and the sound parser to at most 3; consequently every
successful /api/caption response carries at most 4 captions and at most 3
sounds. -/
theorem caption_sound_list_bounds :
    (∀ c : Option String,
      (captionsFromModel c).length ≤ 4 ∧ (soundsFromModel c).length ≤ 3) ∧
    (∀ (inp : CaptionInput) (o : CaptionOracles) (cs ss ts : List String),
      (captionRoute inp o).body = CaptionBody.success cs ss ts →
        cs.length ≤ 4 ∧ ss.length ≤ 3) := by
  constructor
  · intro c
    exact ⟨parseModelLines_length_le 4 _, parseModelLines_length_le 3 _⟩
  · intro inp o cs ss ts h
    unfold captionRoute at h
    by_cases hk : inp.openaiKey.isTruthy
    · simp only [hk, Bool.not_true, Bool.false_eq_true, if_false] at h
      cases hf : inp.file with
      | some videoPath =>
        rw [hf] at h
        cases hff : o.ffmpegRun with
        | error e => rw [hff] at h; simp [captionCatch] at h
        | ok u =>
          rw [hff] at h
          cases htr : o.transcriptionText with
          | error e => rw [htr] at h; simp [captionCatch] at h
          | ok t => rw [htr] at h; exact captionTail_success_bounds o _ cs ss ts h
      | none =>
        rw [hf] at h
        by_cases hi : inp.idea.isTruthy
        · simp only [hi, if_true] at h
          exact captionTail_success_bounds o [] cs ss ts h
        · simp only [hi, Bool.false_eq_true, if_false] at h
          simp at h
    · simp only [hk, Bool.not_false, Bool.false_eq_true, if_true] at h
      simp at h

/-- Witness for claim C2: a concrete successful pipeline run with two
captions and two sounds satisfies the bounds. -/
theorem caption_sound_list_bounds_witness :
    (["alpha", "beta"] : List String).length ≤ 4 ∧
      (["lofi chill beat", "funny meme sound"] : List String).length ≤ 3 :=
  caption_sound_list_bounds.2
    ⟨JsField.str "sk-test", none, JsField.str "my idea"⟩
    ⟨Except.ok (), Except.ok none, Except.ok (), Except.ok (),
      Except.error "offline", Except.ok (some "1. alpha\n2. beta"),
      Except.ok (some "lofi chill beat\nfunny meme sound")⟩
    ["alpha", "beta"] ["lofi chill beat", "funny meme sound"] hardcodedTrends
    (by decide)

/-- Counterexample to claim C3 as stated: two sequential create calls with
identical input both succeed and produce the same id whenever they fall in
the same Date.now millisecond, because the id is the timestamp alone with
no random component; the store then holds two drafts with equal ids. -/
theorem draft_id_collision_same_millisecond :
    collisionStep2.2 = DraftOutcome.success
      ⟨"draft_1700000000000", "Hook idea", "", "", "2023-11-14T22:13:20.000Z", none⟩ ∧
    storeIds collisionStep2.1 = ["draft_1700000000000", "draft_1700000000000"] := by
  decide

/-- Claim C3, amended.  Id generation is purely time-based, the string
draft_ followed by the decimal timestamp, with no random component, so two
create calls produce distinct ids exactly when their Date.now timestamps
differ; within one millisecond the ids collide. -/
theorem draft_id_distinct_of_distinct_timestamp
    (store1 store2 : List Draft) (n1 n2 c1 c2 g1 g2 : JsField)
    (t1 t2 : Nat) (iso1 iso2 : String) (d1 d2 : Draft)
    (ht : t1 ≠ t2)
    (e1 : (postDrafts store1 n1 c1 g1 t1 iso1).2 = DraftOutcome.success d1)
    (e2 : (postDrafts store2 n2 c2 g2 t2 iso2).2 = DraftOutcome.success d2) :
    d1.id ≠ d2.id := by
  have id1 : d1.id = draftIdOf t1 := by
    unfold postDrafts at e1
    by_cases h : n1.isTruthy
    · cases n1 with
      | str s => simp only [h, if_true] at e1; cases e1; rfl
      | undef => simp [JsField.isTruthy] at h
      | null => simp [JsField.isTruthy] at h
    · simp [h] at e1
  have id2 : d2.id = draftIdOf t2 := by
    unfold postDrafts at e2
    by_cases h : n2.isTruthy
    · cases n2 with
      | str s => simp only [h, if_true] at e2; cases e2; rfl
      | undef => simp [JsField.isTruthy] at h
      | null => simp [JsField.isTruthy] at h
    · simp [h] at e2
  rw [id1, id2]
  intro hcontra
  exact ht (draftIdOf_injective hcontra)

/-- Witness for the amended claim C3: creates at two different milliseconds
give different ids. -/
theorem draft_id_distinct_of_distinct_timestamp_witness :
    (⟨"draft_41", "a", "", "", "x", none⟩ : Draft).id ≠
      (⟨"draft_42", "a", "", "", "x", none⟩ : Draft).id :=
  draft_id_distinct_of_distinct_timestamp [] [] (JsField.str "a") (JsField.str "a")
    JsField.undef JsField.undef JsField.undef JsField.undef 41 42 "x" "x"
    ⟨"draft_41", "a", "", "", "x", none⟩ ⟨"draft_42", "a", "", "", "x", none⟩
    (by decide) (by decide) (by decide)

/-- Counterexample to claim C4 as stated: supplying both an idea string and
an uploaded media file does not yield the bad-request error; the handler
takes the file branch and completes with status 200. -/
theorem caption_both_file_and_idea_not_rejected :
    captionRoute bothInputsRequest bothInputsOracles =
      ⟨200, CaptionBody.success [] [] hardcodedTrends,
        ["uploads/clip.mp4", "uploads/clip.mp4.mp3"]⟩ ∧
    (captionRoute bothInputsRequest bothInputsOracles).status ≠ 400 := by
  decide

/-- Claim C4, amended.  A falsy OPENAI_API_KEY yields the 500 configuration
error.  The 400 bad-request error is produced exactly when no file is
uploaded and the idea field is falsy.  When a file is uploaded it takes
precedence: the idea field is ignored entirely and the response is never a
400, even if an idea is supplied as well. -/
theorem caption_credential_and_input_validation :
    (∀ (inp : CaptionInput) (o : CaptionOracles), inp.openaiKey.isTruthy = false →
      captionRoute inp o =
        ⟨500, CaptionBody.failure "OPENAI_API_KEY not set on server" none, []⟩) ∧
    (∀ (inp : CaptionInput) (o : CaptionOracles), inp.openaiKey.isTruthy = true →
      inp.file = none → inp.idea.isTruthy = false →
      captionRoute inp o =
        ⟨400, CaptionBody.failure
          "Provide video file (field \x27video\x27) or JSON { idea }" none, []⟩) ∧
    (∀ (key : JsField) (f : String) (ideaA ideaB : JsField) (o : CaptionOracles),
      captionRoute ⟨key, some f, ideaA⟩ o = captionRoute ⟨key, some f, ideaB⟩ o) ∧
    (∀ (key : JsField) (f : String) (idea : JsField) (o : CaptionOracles),
      (captionRoute ⟨key, some f, idea⟩ o).status ≠ 400) := by
  refine ⟨?_, ?_, ?_, ?_⟩
  · intro inp o h
    unfold captionRoute
    simp [h]
  · intro inp o hk hf hi
    unfold captionRoute
    simp [hk, hf, hi]
  · intro key f ideaA ideaB o
    rfl
  · intro key f idea o
    unfold captionRoute
    by_cases hk : key.isTruthy
    · simp only [hk, Bool.not_true, Bool.false_eq_true, if_false]
      cases o.ffmpegRun with
      | error e => simp [captionCatch]
      | ok u =>
        cases o.transcriptionText with
        | error e => simp [captionCatch]
        | ok t => exact captionTail_status_ne_400 o _
    · simp [hk]

/-- Witness for the amended claim C4: with the credential set, no file and
an absent idea the handler answers the 400 bad-request envelope. -/
theorem caption_credential_and_input_validation_witness :
    captionRoute ⟨JsField.str "sk-test", none, JsField.undef⟩
        ⟨Except.ok (), Except.ok none, Except.ok (), Except.ok (),
          Except.error "offline", Except.ok none, Except.ok none⟩ =
      ⟨400, CaptionBody.failure
        "Provide video file (field \x27video\x27) or JSON { idea }" none, []⟩ :=
  caption_credential_and_input_validation.2.1
    ⟨JsField.str "sk-test", none, JsField.undef⟩
    ⟨Except.ok (), Except.ok none, Except.ok (), Except.ok (),
      Except.error "offline", Except.ok none, Except.ok none⟩
    (by decide) rfl (by decide)

/-- Counterexample to claim C5 as stated: when the transcode of an uploaded
media file fails, the throw lands in the catch block before either
unlinkSync call runs, so neither the original upload nor the derived audio
file is deleted. -/
theorem caption_no_cleanup_when_transcode_fails :
    captionRoute failedTranscodeRequest failedTranscodeOracles =
      ⟨500, CaptionBody.failure "Caption generation failed"
        (some "ffmpeg exited with code 1"), []⟩ ∧
    (captionRoute failedTranscodeRequest failedTranscodeOracles).unlinkAttempts = [] := by
  decide

/-- Claim C5, amended.  When a media upload is processed and both the
transcode and the transcription succeed, both the original upload and the
derived audio file are unlinked, in that order, before the remaining steps
run, so later failures cannot prevent the cleanup; any unlink error is
swallowed and changes nothing about the response.  When the transcode or
the transcription fails, no unlink call is made. -/
theorem caption_cleanup_after_transcription
    (key : JsField) (f : String) (idea : JsField) (o : CaptionOracles) (tr : Option String)
    (hk : key.isTruthy = true)
    (h1 : o.ffmpegRun = Except.ok ())
    (h2 : o.transcriptionText = Except.ok tr) :
    (captionRoute ⟨key, some f, idea⟩ o).unlinkAttempts = [f, f ++ ".mp3"] ∧
    (∀ u1 u2 : Except String Unit,
      captionRoute ⟨key, some f, idea⟩
          { o with unlinkVideo := u1, unlinkAudio := u2 } =
        captionRoute ⟨key, some f, idea⟩ o) := by
  constructor
  · unfold captionRoute
    simp only [hk, Bool.not_true, Bool.false_eq_true, if_false, h1, h2]
    rw [tryUnlink_eq, tryUnlink_eq]
    cases hcc : o.captionCompletion with
    | error e => simp [captionTail, hcc, captionCatch]
    | ok c =>
      cases hsc : o.soundCompletion with
      | error e => simp [captionTail, hcc, hsc, captionCatch]
      | ok sc => simp [captionTail, hcc, hsc]
  · intro u1 u2
    unfold captionRoute
    simp only [hk, Bool.not_true, Bool.false_eq_true, if_false, h1, h2]
    rw [tryUnlink_eq, tryUnlink_eq, tryUnlink_eq, tryUnlink_eq]
    rfl

/-- Witness for the amended claim C5: a concrete run whose video unlink
fails with a permissions error still records both unlink calls. -/
theorem caption_cleanup_after_transcription_witness :
    (captionRoute ⟨JsField.str "sk-test", some "uploads/v.mp4", JsField.undef⟩
        ⟨Except.ok (), Except.ok (some "words"), Except.error "EPERM", Except.ok (),
          Except.error "offline", Except.ok none, Except.ok none⟩).unlinkAttempts =
      ["uploads/v.mp4", "uploads/v.mp4.mp3"] :=
  (caption_cleanup_after_transcription (JsField.str "sk-test") "uploads/v.mp4"
    JsField.undef
    ⟨Except.ok (), Except.ok (some "words"), Except.error "EPERM", Except.ok (),
      Except.error "offline", Except.ok none, Except.ok none⟩
    (some "words") (by decide) rfl rfl).1

/-- Claim C6.  With a falsy name the create handler answers the 400
validation error and the persisted array is returned unchanged; with a
truthy name the fresh record, with caption and hashtags defaulted to the
empty string and the created timestamp set, is prepended to the array, the
full array is persisted, and the record is returned. -/
theorem draft_create_validates_and_prepends
    (store : List Draft) (name caption hashtags : JsField) (now : Nat) (iso : String) :
    (name.isTruthy = false →
      postDrafts store name caption hashtags now iso =
        (store, DraftOutcome.failure ⟨400, false, "Missing name"⟩)) ∧
    (∀ s : String, name = JsField.str s → s ≠ "" →
      postDrafts store name caption hashtags now iso =
        (⟨draftIdOf now, s, caption.orEmpty, hashtags.orEmpty, iso, none⟩ :: store,
          DraftOutcome.success
            ⟨draftIdOf now, s, caption.orEmpty, hashtags.orEmpty, iso, none⟩)) := by
  constructor
  · intro h
    unfold postDrafts
    simp [h]
  · intro s hname hs
    subst hname
    unfold postDrafts
    simp [JsField.isTruthy, hs]

/-- Witness for claim C6: creating a draft named Hook idea at millisecond 5
in an empty store prepends the expected record and returns it. -/
theorem draft_create_validates_and_prepends_witness :
    postDrafts [] (JsField.str "Hook idea") JsField.undef JsField.undef 5 "2024-01-01T00:00:00.005Z" =
      ([⟨"draft_5", "Hook idea", "", "", "2024-01-01T00:00:00.005Z", none⟩],
        DraftOutcome.success ⟨"draft_5", "Hook idea", "", "", "2024-01-01T00:00:00.005Z", none⟩) :=
  (draft_create_validates_and_prepends [] (JsField.str "Hook idea") JsField.undef JsField.undef
    5 "2024-01-01T00:00:00.005Z").2 "Hook idea" rfl (by decide)

/-- Claim C7.  When the store holds a record with the requested id (its
first occurrence being old), the update handler replaces exactly that
record by the merge: id and created are untouched, the three patchable
fields are taken from the patch through nullish coalescing (so omitted
fields keep their prior value), and the updated timestamp is stamped; with
an empty patch every field is unchanged except updated. -/
theorem draft_update_merges_patch_fields
    (pre post : List Draft) (old : Draft) (name caption hashtags : JsField) (iso : String)
    (hpre : ∀ d ∈ pre, d.id ≠ old.id) :
    putDraftRoute (pre ++ old :: post) old.id name caption hashtags iso =
      (pre ++ patchDraft old name caption hashtags iso :: post,
        DraftOutcome.success (patchDraft old name caption hashtags iso)) ∧
    (patchDraft old name caption hashtags iso).id = old.id ∧
    (patchDraft old name caption hashtags iso).created = old.created ∧
    (patchDraft old name caption hashtags iso).updated = some iso ∧
    (patchDraft old name caption hashtags iso).name = name.coalesce old.name ∧
    (patchDraft old name caption hashtags iso).caption = caption.coalesce old.caption ∧
    (patchDraft old name caption hashtags iso).hashtags = hashtags.coalesce old.hashtags ∧
    (name = JsField.undef → caption = JsField.undef → hashtags = JsField.undef →
      patchDraft old name caption hashtags iso = { old with updated := some iso }) := by
  refine ⟨?_, rfl, rfl, rfl, rfl, rfl, rfl, ?_⟩
  · unfold putDraftRoute
    rw [updateFirst_append (fun d => d.id == old.id)
      (fun d => patchDraft d name caption hashtags iso) pre old post
      (fun y hy => by simpa using hpre y hy) (by simp)]
  · intro h1 h2 h3
    subst h1; subst h2; subst h3
    rfl

/-- Witness for claim C7: an empty patch on a one-draft store keeps every
field and stamps updated. -/
theorem draft_update_merges_patch_fields_witness :
    putDraftRoute [⟨"draft_7", "n", "c", "h", "t0", none⟩] "draft_7"
        JsField.undef JsField.undef JsField.undef "t1" =
      ([⟨"draft_7", "n", "c", "h", "t0", some "t1"⟩],
        DraftOutcome.success ⟨"draft_7", "n", "c", "h", "t0", some "t1"⟩) :=
  (draft_update_merges_patch_fields [] [] ⟨"draft_7", "n", "c", "h", "t0", none⟩
    JsField.undef JsField.undef JsField.undef "t1" (by simp)).1

/-- Counterexample to claim C8 as stated: over every store state the
property fails, because delete removes only the first record with the
requested id.  On a store holding two drafts with equal ids, a state the
create route itself produces for two same-millisecond calls, the delete
succeeds and returns the removed record, yet the subsequent list still
contains a draft with the deleted id. -/
theorem draft_delete_leaves_duplicate_id :
    storeIds dupStore = ["draft_42", "draft_42"] ∧
    deleteDraftRoute dupStore "draft_42" =
      ([⟨"draft_42", "first", "", "", "t0", none⟩],
        DraftOutcome.success ⟨"draft_42", "second", "", "", "t1", none⟩) ∧
    storeIds (listDrafts (deleteDraftRoute dupStore "draft_42").1) = ["draft_42"] := by
  decide

/-- Claim C8, amended.  Delete removes the first record with the requested
id and returns it; whenever the stored ids are pairwise distinct (the
intended invariant), the subsequent list contains no draft with the deleted
id. -/
theorem draft_delete_removes_unique_id
    (store : List Draft) (id : String) (ds : List Draft) (removed : Draft)
    (hnodup : (storeIds store).Nodup)
    (hdel : deleteDraftRoute store id = (ds, DraftOutcome.success removed)) :
    removed.id = id ∧ removed ∈ store ∧ ∀ d ∈ listDrafts ds, d.id ≠ id := by
  unfold deleteDraftRoute at hdel
  cases hrem : removeFirst (fun d => d.id == id) store with
  | none => rw [hrem] at hdel; simp at hdel
  | some pr =>
    obtain ⟨ds', r⟩ := pr
    rw [hrem] at hdel
    simp only [Prod.mk.injEq, DraftOutcome.success.injEq] at hdel
    obtain ⟨hds, hr⟩ := hdel
    rw [hds, hr] at hrem
    obtain ⟨pre, post, hstore, hds2, hpre, hp⟩ :=
      removeFirst_spec (fun d => d.id == id) store ds removed hrem
    have hid : removed.id = id := by simpa using hp
    refine ⟨hid, ?_, ?_⟩
    · rw [hstore]
      exact List.mem_append_right pre (List.mem_cons_self removed post)
    · intro d hd
      have hd' : d ∈ pre ++ post := by simpa [listDrafts, ← hds2] using hd
      rcases List.mem_append.mp hd' with hmem | hmem
      · simpa using hpre d hmem
      · rw [hstore] at hnodup
        unfold storeIds at hnodup
        rw [List.map_append, List.map_cons] at hnodup
        have h2 := (List.nodup_append.mp hnodup).2.1
        have h3 : removed.id ∉ post.map Draft.id := (List.nodup_cons.mp h2).1
        intro he
        apply h3
        have hmm : d.id ∈ post.map Draft.id := List.mem_map_of_mem Draft.id hmem
        rw [he] at hmm
        rw [hid]
        exact hmm

/-- Witness for the amended claim C8: deleting from a two-draft store with
distinct ids returns the matching record, which was stored. -/
theorem draft_delete_removes_unique_id_witness :
    (⟨"draft_1", "a", "", "", "t", none⟩ : Draft).id = "draft_1" ∧
    (⟨"draft_1", "a", "", "", "t", none⟩ : Draft) ∈
      [(⟨"draft_1", "a", "", "", "t", none⟩ : Draft), ⟨"draft_2", "b", "", "", "t", none⟩] :=
  ⟨(draft_delete_removes_unique_id
      [⟨"draft_1", "a", "", "", "t", none⟩, ⟨"draft_2", "b", "", "", "t", none⟩]
      "draft_1" [⟨"draft_2", "b", "", "", "t", none⟩] ⟨"draft_1", "a", "", "", "t", none⟩
      (by decide) (by decide)).1,
    (draft_delete_removes_unique_id
      [⟨"draft_1", "a", "", "", "t", none⟩, ⟨"draft_2", "b", "", "", "t", none⟩]
      "draft_1" [⟨"draft_2", "b", "", "", "t", none⟩] ⟨"draft_1", "a", "", "", "t", none⟩
      (by decide) (by decide)).2.1⟩

/-- Claim C9.  For an id held by no stored draft, both the update and the
delete handler answer the 404 envelope with ok false and the message Draft
not found, and the persisted array is returned unchanged: no write
happens. -/
theorem draft_unknown_id_not_found_no_write
    (store : List Draft) (id : String) (name caption hashtags : JsField) (iso : String)
    (h : ∀ d ∈ store, d.id ≠ id) :
    putDraftRoute store id name caption hashtags iso =
      (store, DraftOutcome.failure ⟨404, false, "Draft not found"⟩) ∧
    deleteDraftRoute store id =
      (store, DraftOutcome.failure ⟨404, false, "Draft not found"⟩) := by
  have hb : ∀ d ∈ store, (fun d : Draft => d.id == id) d = false := by
    intro d hd
    simpa using h d hd
  constructor
  · unfold putDraftRoute
    rw [updateFirst_none _ _ store hb]
  · unfold deleteDraftRoute
    rw [removeFirst_none _ store hb]

/-- Witness for claim C9: updating and deleting an unknown id on a
one-draft store answers 404 and leaves the store as it was. -/
theorem draft_unknown_id_not_found_no_write_witness :
    putDraftRoute [⟨"draft_9", "a", "", "", "t", none⟩] "unknown-id"
        (JsField.str "x") JsField.undef JsField.undef "t1" =
      ([⟨"draft_9", "a", "", "", "t", none⟩],
        DraftOutcome.failure ⟨404, false, "Draft not found"⟩) ∧
    deleteDraftRoute [⟨"draft_9", "a", "", "", "t", none⟩] "unknown-id" =
      ([⟨"draft_9", "a", "", "", "t", none⟩],
        DraftOutcome.failure ⟨404, false, "Draft not found"⟩) :=
  draft_unknown_id_not_found_no_write [⟨"draft_9", "a", "", "", "t", none⟩]
    "unknown-id" (JsField.str "x") JsField.undef JsField.undef "t1" (by decide)

/-- Claim C10.  A patch field that is explicitly null is treated exactly as
an absent field: nullish coalescing keeps the prior value of name, caption
and hashtags rather than storing null, an all-null patch behaves as the
empty patch on the whole route, and the updated timestamp is stamped on
every successful merge, whatever the patch. -/
theorem draft_update_null_patch_keeps_fields :
    (∀ (old : Draft) (iso : String),
      patchDraft old JsField.null JsField.null JsField.null iso =
        { old with updated := some iso }) ∧
    (∀ (store : List Draft) (id : String) (iso : String),
      putDraftRoute store id JsField.null JsField.null JsField.null iso =
        putDraftRoute store id JsField.undef JsField.undef JsField.undef iso) ∧
    (∀ (old : Draft) (name caption hashtags : JsField) (iso : String),
      (patchDraft old name caption hashtags iso).updated = some iso) := by
  exact ⟨fun old iso => rfl, fun store id iso => rfl, fun old name caption hashtags iso => rfl⟩
